import Mathlib

/-!
Verification of the Outfitly outfit/version-history engine.

This file shallowly embeds the state logic of `src/App.tsx`: the layered
outfit history, the per-layer pose-image cache, the linear undo stack, the
busy (loading) flag, and the lookbook of saved outfits.  Image handles are
opaque strings; the generation gateway is modelled by passing each
operation the outcome of its (single) gateway call as an `Except` value.
Each operation that may call the gateway returns, alongside the new state,
the number of gateway invocations it performed (0 or 1).

JavaScript-object pose maps are modelled as association lists with the
spread-insert semantics of `\x7b...obj, [k]: v\x7d` (replace in place, or
append at the end).  The ad-hoc undo closures of the source are modelled
as tagged inverse records carrying exactly the values the closures
capture, with `applyUndoRecord` as their interpreter.
-/

/-- Garment category, `'garment' | 'accessory'` in `types.ts`. -/
inductive Category where
  | garment
  | accessory
deriving DecidableEq

/-- A wardrobe item (garment reference): `id`, `name`, `category`.
The image source URL plays no role in the state logic and is omitted. -/
structure WardrobeItem where
  id : String
  name : String
  category : Category
deriving DecidableEq

/-- One layer of the outfit history: an optional garment (none for the
base layer) and the mapping pose-instruction text to generated image. -/
structure OutfitLayer where
  garment : Option WardrobeItem
  poseImages : List (String × String)
deriving DecidableEq

/-- A saved lookbook entry: snapshot of the active layer slice. -/
structure SavedOutfit where
  id : String
  previewUrl : String
  outfitLayers : List OutfitLayer
  poseInstruction : String
deriving DecidableEq

/-- Tagged inverse records, one constructor per undo closure shape pushed
by the source.  Each carries exactly the data the closure captures. -/
inductive UndoRecord where
  /-- Cache-hit garment apply: `setCurrentOutfitIndex(previousOutfitIndex)`. -/
  | restoreIndex (value : Nat)
  /-- Cache-miss garment apply:
  `setCurrentOutfitIndex(prev => prev - 1); setCurrentPoseIndex(0)`. -/
  | decIndexResetPose
  /-- Pose generation: restore the captured layer and the prior pose index. -/
  | restoreLayerAndPose (index : Nat) (layer : OutfitLayer) (poseIndex : Nat)
  /-- Background change / masked edit: restore the captured layer. -/
  | restoreLayer (index : Nat) (layer : OutfitLayer)
  /-- Aspect-ratio change: restore the captured layer and the prior ratio. -/
  | restoreLayerAndRatio (index : Nat) (layer : OutfitLayer) (ratio : String)
deriving DecidableEq

/-- The session state owned by the `App` component (the fields that the
history/undo/lookbook logic reads or writes; presentation-only fields
such as `loadingMessage` and the collapsed-panel flags are omitted). -/
structure AppState where
  modelImageUrl : Option String
  outfitHistory : List OutfitLayer
  currentOutfitIndex : Nat
  isLoading : Bool
  error : Option String
  poseInstructions : List String
  currentPoseIndex : Nat
  wardrobe : List WardrobeItem
  savedOutfits : List SavedOutfit
  currentAspectRatio : String
  undoStack : List UndoRecord
deriving DecidableEq

/-- JavaScript truthiness of an optional string: `undefined`/`null` and
the empty string are falsy. -/
def jsTruthy : Option String → Bool
  | none => false
  | some s => s ≠ ""

/-- JS object lookup `m[k]` on an association list (first binding wins;
keys are unique in practice). -/
def objLookup (m : List (String × String)) (k : String) : Option String :=
  match m with
  | [] => none
  | (k2, v) :: rest => if k2 = k then some v else objLookup rest k

/-- JS spread-insert `\x7b...m, [k]: v\x7d`: replaces the value at `k` in
place if present, otherwise appends the binding at the end. -/
def objInsert (m : List (String × String)) (k v : String) : List (String × String) :=
  match m with
  | [] => [(k, v)]
  | (k2, v2) :: rest => if k2 = k then (k2, v) :: rest else (k2, v2) :: objInsert rest k v

/-- `Object.values(m)[0]`: value of the first binding. -/
def objFirstValue (m : List (String × String)) : Option String :=
  match m with
  | [] => none
  | (_, v) :: _ => some v

/-- `poseInstructions[i]` as an insert/lookup key (out-of-range indices
never match a stored key, mirroring an `undefined` subscript). -/
def poseKey (s : AppState) (i : Nat) : String :=
  s.poseInstructions.getD i ""

/-- The derived active layer slice `outfitHistory.slice(0, currentOutfitIndex + 1)`. -/
def activeOutfitLayers (s : AppState) : List OutfitLayer :=
  s.outfitHistory.take (s.currentOutfitIndex + 1)

/-- The derived display image (`displayImageUrl` memo in `App.tsx`):
the active layer's image for the current pose, else the layer's first
image, else the bare model image when there is no history/layer. -/
def displayImageUrl (s : AppState) : Option String :=
  if s.outfitHistory = [] then s.modelImageUrl
  else
    match s.outfitHistory.get? s.currentOutfitIndex with
    | none => s.modelImageUrl
    | some currentLayer =>
      match objLookup currentLayer.poseImages (poseKey s s.currentPoseIndex) with
      | some img => some img
      | none => objFirstValue currentLayer.poseImages

/-- The cache test of `handleGarmentSelect`:
`nextLayer && nextLayer.garment?.id === garmentInfo.id`. -/
def cacheHitFor (s : AppState) (garmentInfo : WardrobeItem) : Bool :=
  match s.outfitHistory.get? (s.currentOutfitIndex + 1) with
  | none => false
  | some nextLayer =>
    match nextLayer.garment with
    | none => false
    | some g => g.id = garmentInfo.id

/-- The initial pose catalog (`INITIAL_POSE_INSTRUCTIONS`). -/
def INITIAL_POSE_INSTRUCTIONS : List String :=
  ["Full frontal view, hands on hips",
   "Slightly turned, 3/4 view",
   "Side profile view",
   "Walking towards camera",
   "Leaning against a wall",
   "Sitting on a stool",
   "Arms crossed, looking confident",
   "Hands in pockets, casual stance",
   "Jumping in the air, mid-action shot",
   "Looking over the shoulder",
   "Dynamic fashion pose, one leg forward",
   "Lounging on a sofa"]

/-- The default wardrobe (`wardrobe.ts`), restricted to the fields the
state logic uses. -/
def defaultWardrobe : List WardrobeItem :=
  [{ id := "gemini-sweat", name := "Gemini Sweat", category := Category.garment },
   { id := "gemini-tee", name := "Gemini Tee", category := Category.garment },
   { id := "black-beanie", name := "Black Beanie", category := Category.accessory },
   { id := "aviator-sunglasses", name := "Aviators", category := Category.accessory },
   { id := "gold-necklace", name := "Gold Necklace", category := Category.accessory }]

/-- `handleModelFinalized`: install the base layer, keyed by pose 0. -/
def handleModelFinalized (s : AppState) (url : String) : AppState :=
  { s with
    modelImageUrl := some url,
    outfitHistory := [{ garment := none, poseImages := [(s.poseInstructions.headD "", url)] }],
    currentOutfitIndex := 0 }

/-- Modelled from the spec: `getFriendlyErrorMessage` lives in
`lib/utils`, which is not part of the provided sources.  Per the spec
(section 7) it maps a raw gateway failure to a user-facing message by
substring heuristics; no claim depends on the exact text, so it is
modelled as the fallback context joined to the raw message. -/
def getFriendlyErrorMessage (raw fallbackMessage : String) : String :=
  fallbackMessage ++ ": " ++ raw

/-- `handleStartOver`: full reset of the session (saved outfits are kept). -/
def handleStartOver (s : AppState) : AppState :=
  { s with
    modelImageUrl := none,
    outfitHistory := [],
    currentOutfitIndex := 0,
    isLoading := false,
    error := none,
    currentPoseIndex := 0,
    poseInstructions := INITIAL_POSE_INSTRUCTIONS,
    wardrobe := defaultWardrobe,
    currentAspectRatio := "2:3",
    undoStack := [] }

/-- `handleGarmentSelect`: apply a garment at the cursor.  `gw` is the
outcome of the try-on/accessory gateway call (consulted only on a cache
miss).  Returns the new state and the number of gateway invocations. -/
def handleGarmentSelect (s : AppState) (garmentInfo : WardrobeItem)
    (gw : Except String String) : AppState × Nat :=
  if jsTruthy (displayImageUrl s) = false ∨ s.isLoading then (s, 0)
  else if cacheHitFor s garmentInfo then
    ({ s with
       currentOutfitIndex := s.currentOutfitIndex + 1,
       currentPoseIndex := 0,
       undoStack := s.undoStack ++ [UndoRecord.restoreIndex s.currentOutfitIndex] }, 0)
  else
    match gw with
    | Except.ok newImageUrl =>
      let newLayer : OutfitLayer :=
        { garment := some garmentInfo,
          poseImages := [(poseKey s s.currentPoseIndex, newImageUrl)] }
      ({ s with
         error := none,
         isLoading := false,
         outfitHistory := s.outfitHistory.take (s.currentOutfitIndex + 1) ++ [newLayer],
         currentOutfitIndex := s.currentOutfitIndex + 1,
         undoStack := s.undoStack ++ [UndoRecord.decIndexResetPose],
         wardrobe := if s.wardrobe.any (fun item => item.id == garmentInfo.id)
                     then s.wardrobe
                     else s.wardrobe ++ [garmentInfo] }, 1)
    | Except.error raw =>
      ({ s with
         error := some (getFriendlyErrorMessage raw "Failed to apply garment"),
         isLoading := false }, 1)

/-- `handleRemoveLastGarment`: step the cursor back one layer, reset the
pose, and clear the undo stack.  Note: no busy-flag check in the source. -/
def handleRemoveLastGarment (s : AppState) : AppState :=
  if s.currentOutfitIndex > 0 then
    { s with
      currentOutfitIndex := s.currentOutfitIndex - 1,
      currentPoseIndex := 0,
      undoStack := [] }
  else s

/-- `handlePoseSelect`: show a cached pose, or generate the missing pose
via the gateway (`gw` is that call's outcome). -/
def handlePoseSelect (s : AppState) (newIndex : Nat)
    (gw : Except String String) : AppState × Nat :=
  if s.isLoading ∨ s.outfitHistory = [] ∨ newIndex = s.currentPoseIndex then (s, 0)
  else
    match s.outfitHistory.get? s.currentOutfitIndex with
    | none => (s, 0) -- cursor out of range: unreachable under the cursor invariant (the source would fault)
    | some currentLayer =>
      let poseInstruction := poseKey s newIndex
      if jsTruthy (objLookup currentLayer.poseImages poseInstruction) then
        ({ s with currentPoseIndex := newIndex }, 0)
      else if jsTruthy (objFirstValue currentLayer.poseImages) = false then (s, 0)
      else
        match gw with
        | Except.ok newImageUrl =>
          let updatedLayer : OutfitLayer :=
            { currentLayer with
              poseImages := objInsert currentLayer.poseImages poseInstruction newImageUrl }
          ({ s with
             error := none,
             isLoading := false,
             currentPoseIndex := newIndex,
             outfitHistory := s.outfitHistory.set s.currentOutfitIndex updatedLayer,
             undoStack := s.undoStack ++
               [UndoRecord.restoreLayerAndPose s.currentOutfitIndex currentLayer
                 s.currentPoseIndex] }, 1)
        | Except.error raw =>
          ({ s with
             error := some (getFriendlyErrorMessage raw "Failed to change pose"),
             isLoading := false }, 1)

/-- `handleBackgroundChange`: regenerate the current pose image of the
active layer over a new (text-described) background. -/
def handleBackgroundChange (s : AppState) (gw : Except String String) : AppState × Nat :=
  if jsTruthy (displayImageUrl s) = false ∨ s.isLoading then (s, 0)
  else
    match s.outfitHistory.get? s.currentOutfitIndex with
    | none => (s, 0) -- cursor out of range: unreachable under the cursor invariant
    | some originalLayer =>
      match gw with
      | Except.ok newImageUrl =>
        let updatedLayer : OutfitLayer :=
          { originalLayer with
            poseImages := objInsert originalLayer.poseImages
              (poseKey s s.currentPoseIndex) newImageUrl }
        ({ s with
           error := none,
           isLoading := false,
           outfitHistory := s.outfitHistory.set s.currentOutfitIndex updatedLayer,
           undoStack := s.undoStack ++
             [UndoRecord.restoreLayer s.currentOutfitIndex originalLayer] }, 1)
      | Except.error raw =>
        ({ s with
           error := some (getFriendlyErrorMessage raw "Failed to change background"),
           isLoading := false }, 1)

/-- `handleCustomBackgroundChange`: same state logic as
`handleBackgroundChange`; only the gateway operation differs. -/
def handleCustomBackgroundChange (s : AppState) (gw : Except String String) : AppState × Nat :=
  if jsTruthy (displayImageUrl s) = false ∨ s.isLoading then (s, 0)
  else
    match s.outfitHistory.get? s.currentOutfitIndex with
    | none => (s, 0) -- cursor out of range: unreachable under the cursor invariant
    | some originalLayer =>
      match gw with
      | Except.ok newImageUrl =>
        let updatedLayer : OutfitLayer :=
          { originalLayer with
            poseImages := objInsert originalLayer.poseImages
              (poseKey s s.currentPoseIndex) newImageUrl }
        ({ s with
           error := none,
           isLoading := false,
           outfitHistory := s.outfitHistory.set s.currentOutfitIndex updatedLayer,
           undoStack := s.undoStack ++
             [UndoRecord.restoreLayer s.currentOutfitIndex originalLayer] }, 1)
      | Except.error raw =>
        ({ s with
           error := some (getFriendlyErrorMessage raw "Failed to change background"),
           isLoading := false }, 1)

/-- `handleAspectRatioChange`: optimistically set the global ratio, then
recompose the current pose image of the active layer for it. -/
def handleAspectRatioChange (s : AppState) (newAspectRatio : String)
    (gw : Except String String) : AppState × Nat :=
  if jsTruthy (displayImageUrl s) = false ∨ s.isLoading ∨
     newAspectRatio = s.currentAspectRatio then (s, 0)
  else
    match s.outfitHistory.get? s.currentOutfitIndex with
    | none => (s, 0) -- cursor out of range: unreachable under the cursor invariant
    | some originalLayer =>
      match gw with
      | Except.ok newImageUrl =>
        let updatedLayer : OutfitLayer :=
          { originalLayer with
            poseImages := objInsert originalLayer.poseImages
              (poseKey s s.currentPoseIndex) newImageUrl }
        ({ s with
           error := none,
           isLoading := false,
           currentAspectRatio := newAspectRatio,
           outfitHistory := s.outfitHistory.set s.currentOutfitIndex updatedLayer,
           undoStack := s.undoStack ++
             [UndoRecord.restoreLayerAndRatio s.currentOutfitIndex originalLayer
               s.currentAspectRatio] }, 1)
      | Except.error raw =>
        ({ s with
           error := some (getFriendlyErrorMessage raw "Failed to change aspect ratio"),
           isLoading := false }, 1) -- the optimistic ratio update is reverted, so the ratio is unchanged

/-- `handleImageEdit`: masked free-form edit of the current pose image of
the active layer. -/
def handleImageEdit (s : AppState) (gw : Except String String) : AppState × Nat :=
  if jsTruthy (displayImageUrl s) = false ∨ s.isLoading then (s, 0)
  else
    match s.outfitHistory.get? s.currentOutfitIndex with
    | none => (s, 0) -- cursor out of range: unreachable under the cursor invariant
    | some originalLayer =>
      match gw with
      | Except.ok newImageUrl =>
        let updatedLayer : OutfitLayer :=
          { originalLayer with
            poseImages := objInsert originalLayer.poseImages
              (poseKey s s.currentPoseIndex) newImageUrl }
        ({ s with
           error := none,
           isLoading := false,
           outfitHistory := s.outfitHistory.set s.currentOutfitIndex updatedLayer,
           undoStack := s.undoStack ++
             [UndoRecord.restoreLayer s.currentOutfitIndex originalLayer] }, 1)
      | Except.error raw =>
        ({ s with
           error := some (getFriendlyErrorMessage raw "Failed to apply edits"),
           isLoading := false }, 1)

/-- `handleSaveOutfit`: snapshot the active layer slice into the lookbook.
`freshId` models the timestamp-derived id; `storage` is the outcome of the
storage `set` (none = success, some raw = thrown error).  The returned
Bool records whether storage `set` was invoked.  Note: no busy-flag check
in the source. -/
def handleSaveOutfit (s : AppState) (freshId : String)
    (storage : Option String) : AppState × Bool :=
  if jsTruthy (displayImageUrl s) = false ∨ (activeOutfitLayers s).length ≤ 1 then (s, false)
  else
    let newSavedOutfit : SavedOutfit :=
      { id := freshId,
        previewUrl := (displayImageUrl s).getD "",
        outfitLayers := activeOutfitLayers s,
        poseInstruction := poseKey s s.currentPoseIndex }
    ({ s with
       savedOutfits := s.savedOutfits ++ [newSavedOutfit],
       error := match storage with
                | none => s.error
                | some raw => some (getFriendlyErrorMessage raw
                    "Could not save outfit to your device storage. It might be full.") }, true)

/-- `handleLoadOutfit`: replace the history wholesale with a saved
snapshot, appending its pose instruction to the catalog if absent. -/
def handleLoadOutfit (s : AppState) (outfit : SavedOutfit) : AppState :=
  if s.isLoading then s
  else
    match s.poseInstructions.findIdx? (fun p => p == outfit.poseInstruction) with
    | some poseIndex =>
      { s with
        error := none,
        outfitHistory := outfit.outfitLayers,
        currentOutfitIndex := outfit.outfitLayers.length - 1,
        currentPoseIndex := poseIndex,
        undoStack := [] }
    | none =>
      { s with
        error := none,
        poseInstructions := s.poseInstructions ++ [outfit.poseInstruction],
        outfitHistory := outfit.outfitLayers,
        currentOutfitIndex := outfit.outfitLayers.length - 1,
        currentPoseIndex := s.poseInstructions.length,
        undoStack := [] }

/-- Interpreter for the inverse records: what each source undo closure
does to the state when executed. -/
def applyUndoRecord (s : AppState) (r : UndoRecord) : AppState :=
  match r with
  | UndoRecord.restoreIndex v => { s with currentOutfitIndex := v }
  | UndoRecord.decIndexResetPose =>
    { s with currentOutfitIndex := s.currentOutfitIndex - 1, currentPoseIndex := 0 }
  | UndoRecord.restoreLayerAndPose i layer p =>
    { s with outfitHistory := s.outfitHistory.set i layer, currentPoseIndex := p }
  | UndoRecord.restoreLayer i layer =>
    { s with outfitHistory := s.outfitHistory.set i layer }
  | UndoRecord.restoreLayerAndRatio i layer ratio =>
    { s with outfitHistory := s.outfitHistory.set i layer, currentAspectRatio := ratio }

/-- `handleUndo`: pop the top inverse record and execute it. -/
def handleUndo (s : AppState) : AppState :=
  if s.undoStack = [] ∨ s.isLoading then s
  else
    match s.undoStack.getLast? with
    | none => s
    | some r =>
      { applyUndoRecord s r with error := none, undoStack := s.undoStack.dropLast }

/-! ## Basic lemmas about the JS-object operations -/

theorem objInsert_ne_nil (m : List (String × String)) (k v : String) :
    objInsert m k v ≠ [] := by
  cases m with
  | nil => simp [objInsert]
  | cons p rest =>
    obtain ⟨k2, v2⟩ := p
    by_cases h : k2 = k <;> simp [objInsert, h]

theorem objLookup_objInsert_self (m : List (String × String)) (k v : String) :
    objLookup (objInsert m k v) k = some v := by
  induction m with
  | nil => simp [objInsert, objLookup]
  | cons p rest ih =>
    obtain ⟨k2, v2⟩ := p
    by_cases h : k2 = k <;> simp [objInsert, objLookup, h, ih]

theorem objLookup_objInsert_ne (m : List (String × String)) (k v k2 : String)
    (h : k2 ≠ k) : objLookup (objInsert m k v) k2 = objLookup m k2 := by
  have h2 : ¬ (k = k2) := fun hh => h hh.symm
  induction m with
  | nil => simp [objInsert, objLookup, h2]
  | cons p rest ih =>
    obtain ⟨k3, v3⟩ := p
    by_cases h3 : k3 = k
    · have h4 : ¬ (k3 = k2) := by rw [h3]; exact h2
      simp [objInsert, objLookup, h3, h4, h2]
    · by_cases h4 : k3 = k2 <;> simp [objInsert, objLookup, h3, h4, h2, h, ih]

theorem isSome_objLookup_objInsert (m : List (String × String)) (k v k2 : String)
    (h : (objLookup m k2).isSome) : (objLookup (objInsert m k v) k2).isSome := by
  by_cases he : k2 = k
  · subst he; rw [objLookup_objInsert_self]; rfl
  · rwa [objLookup_objInsert_ne m k v k2 he]

theorem objFirstValue_isSome (m : List (String × String)) (h : m ≠ []) :
    (objFirstValue m).isSome := by
  cases m with
  | nil => exact absurd rfl h
  | cons p rest => simp [objFirstValue]

theorem list_set_get?_self {α : Type} (l : List α) :
    ∀ (i : Nat) (a : α), l.get? i = some a → l.set i a = l := by
  induction l with
  | nil => intro i a h; simp at h
  | cons x xs ih =>
    intro i a h
    cases i with
    | zero =>
      simp only [List.get?_cons_zero, Option.some.injEq] at h
      simp [h]
    | succ n =>
      simp only [List.get?_cons_succ] at h
      simp [ih n a h]

/-! ## One-step characterizations of the operations

These lemmas restate each branch of an operation as an explicit record
update, so that multi-step scenarios can be proved by rewriting. -/

theorem garmentSelect_hit_eq (s : AppState) (g : WardrobeItem) (gw : Except String String)
    (hd : jsTruthy (displayImageUrl s) = true) (hL : s.isLoading = false)
    (hhit : cacheHitFor s g = true) :
    handleGarmentSelect s g gw =
      ({ s with
         currentOutfitIndex := s.currentOutfitIndex + 1,
         currentPoseIndex := 0,
         undoStack := s.undoStack ++ [UndoRecord.restoreIndex s.currentOutfitIndex] }, 0) := by
  unfold handleGarmentSelect
  rw [if_neg (by simp [hd, hL]), if_pos hhit]

theorem garmentSelect_miss_ok_eq (s : AppState) (g : WardrobeItem) (img : String)
    (hd : jsTruthy (displayImageUrl s) = true) (hL : s.isLoading = false)
    (hmiss : cacheHitFor s g = false) :
    handleGarmentSelect s g (Except.ok img) =
      ({ s with
         error := none,
         isLoading := false,
         outfitHistory := s.outfitHistory.take (s.currentOutfitIndex + 1) ++
           [{ garment := some g, poseImages := [(poseKey s s.currentPoseIndex, img)] }],
         currentOutfitIndex := s.currentOutfitIndex + 1,
         undoStack := s.undoStack ++ [UndoRecord.decIndexResetPose],
         wardrobe := if s.wardrobe.any (fun item => item.id == g.id)
                     then s.wardrobe
                     else s.wardrobe ++ [g] }, 1) := by
  unfold handleGarmentSelect
  rw [if_neg (by simp [hd, hL]), if_neg (by simp [hmiss])]

theorem garmentSelect_miss_err_eq (s : AppState) (g : WardrobeItem) (raw : String)
    (hd : jsTruthy (displayImageUrl s) = true) (hL : s.isLoading = false)
    (hmiss : cacheHitFor s g = false) :
    handleGarmentSelect s g (Except.error raw) =
      ({ s with
         error := some (getFriendlyErrorMessage raw "Failed to apply garment"),
         isLoading := false }, 1) := by
  unfold handleGarmentSelect
  rw [if_neg (by simp [hd, hL]), if_neg (by simp [hmiss])]

theorem poseSelect_cached_eq (s : AppState) (newIndex : Nat) (gw : Except String String)
    (layer : OutfitLayer)
    (hL : s.isLoading = false) (hne : s.outfitHistory ≠ [])
    (hidx : newIndex ≠ s.currentPoseIndex)
    (hget : s.outfitHistory.get? s.currentOutfitIndex = some layer)
    (hcached : jsTruthy (objLookup layer.poseImages (poseKey s newIndex)) = true) :
    handlePoseSelect s newIndex gw = ({ s with currentPoseIndex := newIndex }, 0) := by
  unfold handlePoseSelect
  rw [if_neg (by simp [hL, hne, hidx]), hget]
  simp [hcached]

theorem poseSelect_gen_ok_eq (s : AppState) (newIndex : Nat) (img : String)
    (layer : OutfitLayer)
    (hL : s.isLoading = false) (hne : s.outfitHistory ≠ [])
    (hidx : newIndex ≠ s.currentPoseIndex)
    (hget : s.outfitHistory.get? s.currentOutfitIndex = some layer)
    (hmiss : jsTruthy (objLookup layer.poseImages (poseKey s newIndex)) = false)
    (hbase : jsTruthy (objFirstValue layer.poseImages) = true) :
    handlePoseSelect s newIndex (Except.ok img) =
      ({ s with
         error := none,
         isLoading := false,
         currentPoseIndex := newIndex,
         outfitHistory := s.outfitHistory.set s.currentOutfitIndex
           { layer with poseImages := objInsert layer.poseImages (poseKey s newIndex) img },
         undoStack := s.undoStack ++
           [UndoRecord.restoreLayerAndPose s.currentOutfitIndex layer
             s.currentPoseIndex] }, 1) := by
  unfold handlePoseSelect
  rw [if_neg (by simp [hL, hne, hidx]), hget]
  simp [hmiss, hbase]

theorem poseSelect_gen_err_eq (s : AppState) (newIndex : Nat) (raw : String)
    (layer : OutfitLayer)
    (hL : s.isLoading = false) (hne : s.outfitHistory ≠ [])
    (hidx : newIndex ≠ s.currentPoseIndex)
    (hget : s.outfitHistory.get? s.currentOutfitIndex = some layer)
    (hmiss : jsTruthy (objLookup layer.poseImages (poseKey s newIndex)) = false)
    (hbase : jsTruthy (objFirstValue layer.poseImages) = true) :
    handlePoseSelect s newIndex (Except.error raw) =
      ({ s with
         error := some (getFriendlyErrorMessage raw "Failed to change pose"),
         isLoading := false }, 1) := by
  unfold handlePoseSelect
  rw [if_neg (by simp [hL, hne, hidx]), hget]
  simp [hmiss, hbase]

theorem backgroundChange_ok_eq (s : AppState) (img : String) (layer : OutfitLayer)
    (hd : jsTruthy (displayImageUrl s) = true) (hL : s.isLoading = false)
    (hget : s.outfitHistory.get? s.currentOutfitIndex = some layer) :
    handleBackgroundChange s (Except.ok img) =
      ({ s with
         error := none,
         isLoading := false,
         outfitHistory := s.outfitHistory.set s.currentOutfitIndex
           { layer with
             poseImages := objInsert layer.poseImages (poseKey s s.currentPoseIndex) img },
         undoStack := s.undoStack ++
           [UndoRecord.restoreLayer s.currentOutfitIndex layer] }, 1) := by
  unfold handleBackgroundChange
  rw [if_neg (by simp [hd, hL]), hget]

theorem backgroundChange_err_eq (s : AppState) (raw : String) (layer : OutfitLayer)
    (hd : jsTruthy (displayImageUrl s) = true) (hL : s.isLoading = false)
    (hget : s.outfitHistory.get? s.currentOutfitIndex = some layer) :
    handleBackgroundChange s (Except.error raw) =
      ({ s with
         error := some (getFriendlyErrorMessage raw "Failed to change background"),
         isLoading := false }, 1) := by
  unfold handleBackgroundChange
  rw [if_neg (by simp [hd, hL]), hget]

theorem customBackgroundChange_ok_eq (s : AppState) (img : String) (layer : OutfitLayer)
    (hd : jsTruthy (displayImageUrl s) = true) (hL : s.isLoading = false)
    (hget : s.outfitHistory.get? s.currentOutfitIndex = some layer) :
    handleCustomBackgroundChange s (Except.ok img) =
      ({ s with
         error := none,
         isLoading := false,
         outfitHistory := s.outfitHistory.set s.currentOutfitIndex
           { layer with
             poseImages := objInsert layer.poseImages (poseKey s s.currentPoseIndex) img },
         undoStack := s.undoStack ++
           [UndoRecord.restoreLayer s.currentOutfitIndex layer] }, 1) := by
  unfold handleCustomBackgroundChange
  rw [if_neg (by simp [hd, hL]), hget]

theorem aspectRatioChange_ok_eq (s : AppState) (newRatio img : String) (layer : OutfitLayer)
    (hd : jsTruthy (displayImageUrl s) = true) (hL : s.isLoading = false)
    (hr : newRatio ≠ s.currentAspectRatio)
    (hget : s.outfitHistory.get? s.currentOutfitIndex = some layer) :
    handleAspectRatioChange s newRatio (Except.ok img) =
      ({ s with
         error := none,
         isLoading := false,
         currentAspectRatio := newRatio,
         outfitHistory := s.outfitHistory.set s.currentOutfitIndex
           { layer with
             poseImages := objInsert layer.poseImages (poseKey s s.currentPoseIndex) img },
         undoStack := s.undoStack ++
           [UndoRecord.restoreLayerAndRatio s.currentOutfitIndex layer
             s.currentAspectRatio] }, 1) := by
  unfold handleAspectRatioChange
  rw [if_neg (by simp [hd, hL, hr]), hget]

theorem aspectRatioChange_err_eq (s : AppState) (newRatio raw : String) (layer : OutfitLayer)
    (hd : jsTruthy (displayImageUrl s) = true) (hL : s.isLoading = false)
    (hr : newRatio ≠ s.currentAspectRatio)
    (hget : s.outfitHistory.get? s.currentOutfitIndex = some layer) :
    handleAspectRatioChange s newRatio (Except.error raw) =
      ({ s with
         error := some (getFriendlyErrorMessage raw "Failed to change aspect ratio"),
         isLoading := false }, 1) := by
  unfold handleAspectRatioChange
  rw [if_neg (by simp [hd, hL, hr]), hget]

theorem imageEdit_ok_eq (s : AppState) (img : String) (layer : OutfitLayer)
    (hd : jsTruthy (displayImageUrl s) = true) (hL : s.isLoading = false)
    (hget : s.outfitHistory.get? s.currentOutfitIndex = some layer) :
    handleImageEdit s (Except.ok img) =
      ({ s with
         error := none,
         isLoading := false,
         outfitHistory := s.outfitHistory.set s.currentOutfitIndex
           { layer with
             poseImages := objInsert layer.poseImages (poseKey s s.currentPoseIndex) img },
         undoStack := s.undoStack ++
           [UndoRecord.restoreLayer s.currentOutfitIndex layer] }, 1) := by
  unfold handleImageEdit
  rw [if_neg (by simp [hd, hL]), hget]

theorem imageEdit_err_eq (s : AppState) (raw : String) (layer : OutfitLayer)
    (hd : jsTruthy (displayImageUrl s) = true) (hL : s.isLoading = false)
    (hget : s.outfitHistory.get? s.currentOutfitIndex = some layer) :
    handleImageEdit s (Except.error raw) =
      ({ s with
         error := some (getFriendlyErrorMessage raw "Failed to apply edits"),
         isLoading := false }, 1) := by
  unfold handleImageEdit
  rw [if_neg (by simp [hd, hL]), hget]

theorem handleUndo_concat (s : AppState) (xs : List UndoRecord) (r : UndoRecord)
    (hL : s.isLoading = false) (hstack : s.undoStack = xs ++ [r]) :
    handleUndo s = { applyUndoRecord s r with error := none, undoStack := xs } := by
  unfold handleUndo
  rw [hstack, if_neg (by simp [hL]), List.getLast?_concat, List.dropLast_concat]

/-- Every layer in a history has a non-empty pose-image map (the spec's
per-layer invariant). -/
def layersNonEmpty (h : List OutfitLayer) : Prop := ∀ l ∈ h, l.poseImages ≠ []

/-- The history after a garment apply: unchanged (guard, cache hit, or
failure) or truncated-and-extended by a fresh single-entry layer. -/
theorem garmentSelect_history_cases (s : AppState) (g : WardrobeItem)
    (gw : Except String String) :
    ((handleGarmentSelect s g gw).1).outfitHistory = s.outfitHistory ∨
    ∃ nl : OutfitLayer, nl.poseImages ≠ [] ∧
      ((handleGarmentSelect s g gw).1).outfitHistory =
        s.outfitHistory.take (s.currentOutfitIndex + 1) ++ [nl] := by
  unfold handleGarmentSelect
  by_cases hc : jsTruthy (displayImageUrl s) = false ∨ s.isLoading = true
  · rw [if_pos hc]
    left
    rfl
  · rw [if_neg hc]
    by_cases hh : cacheHitFor s g = true
    · rw [if_pos hh]
      left
      rfl
    · rw [if_neg hh]
      cases gw with
      | error raw => left; rfl
      | ok img => right; exact ⟨_, by simp, rfl⟩

/-- The history after a pose selection: unchanged, or the active layer
replaced by an objInsert-extension of itself. -/
theorem poseSelect_history_cases (s : AppState) (n : Nat) (gw : Except String String) :
    ((handlePoseSelect s n gw).1).outfitHistory = s.outfitHistory ∨
    ∃ layer img key, s.outfitHistory.get? s.currentOutfitIndex = some layer ∧
      ((handlePoseSelect s n gw).1).outfitHistory =
        s.outfitHistory.set s.currentOutfitIndex
          { layer with poseImages := objInsert layer.poseImages key img } := by
  unfold handlePoseSelect
  by_cases hc : s.isLoading = true ∨ s.outfitHistory = [] ∨ n = s.currentPoseIndex
  · rw [if_pos hc]
    left
    rfl
  · rw [if_neg hc]
    cases hg2 : s.outfitHistory.get? s.currentOutfitIndex with
    | none => left; rfl
    | some layer =>
      by_cases hch : jsTruthy (objLookup layer.poseImages (poseKey s n)) = true
      · left
        simp [hch]
      · by_cases hb : jsTruthy (objFirstValue layer.poseImages) = false
        · left
          simp [hch, hb]
        · cases gw with
          | error raw =>
            left
            simp [hch, hb]
          | ok img =>
            right
            refine ⟨layer, img, poseKey s n, rfl, ?_⟩
            simp [hch, hb]

/-- The history after a background change: unchanged, or the active layer
replaced by an objInsert-extension of itself. -/
theorem backgroundChange_history_cases (s : AppState) (gw : Except String String) :
    ((handleBackgroundChange s gw).1).outfitHistory = s.outfitHistory ∨
    ∃ layer img key, s.outfitHistory.get? s.currentOutfitIndex = some layer ∧
      ((handleBackgroundChange s gw).1).outfitHistory =
        s.outfitHistory.set s.currentOutfitIndex
          { layer with poseImages := objInsert layer.poseImages key img } := by
  unfold handleBackgroundChange
  by_cases hc : jsTruthy (displayImageUrl s) = false ∨ s.isLoading = true
  · rw [if_pos hc]
    left
    rfl
  · rw [if_neg hc]
    cases hg2 : s.outfitHistory.get? s.currentOutfitIndex with
    | none => left; rfl
    | some layer =>
      cases gw with
      | error raw => left; rfl
      | ok img => right; exact ⟨layer, img, poseKey s s.currentPoseIndex, rfl, rfl⟩

/-- Same for the image-backed background change. -/
theorem customBackgroundChange_history_cases (s : AppState) (gw : Except String String) :
    ((handleCustomBackgroundChange s gw).1).outfitHistory = s.outfitHistory ∨
    ∃ layer img key, s.outfitHistory.get? s.currentOutfitIndex = some layer ∧
      ((handleCustomBackgroundChange s gw).1).outfitHistory =
        s.outfitHistory.set s.currentOutfitIndex
          { layer with poseImages := objInsert layer.poseImages key img } := by
  unfold handleCustomBackgroundChange
  by_cases hc : jsTruthy (displayImageUrl s) = false ∨ s.isLoading = true
  · rw [if_pos hc]
    left
    rfl
  · rw [if_neg hc]
    cases hg2 : s.outfitHistory.get? s.currentOutfitIndex with
    | none => left; rfl
    | some layer =>
      cases gw with
      | error raw => left; rfl
      | ok img => right; exact ⟨layer, img, poseKey s s.currentPoseIndex, rfl, rfl⟩

/-- Same for the aspect-ratio change. -/
theorem aspectRatioChange_history_cases (s : AppState) (newRatio : String)
    (gw : Except String String) :
    ((handleAspectRatioChange s newRatio gw).1).outfitHistory = s.outfitHistory ∨
    ∃ layer img key, s.outfitHistory.get? s.currentOutfitIndex = some layer ∧
      ((handleAspectRatioChange s newRatio gw).1).outfitHistory =
        s.outfitHistory.set s.currentOutfitIndex
          { layer with poseImages := objInsert layer.poseImages key img } := by
  unfold handleAspectRatioChange
  by_cases hc : jsTruthy (displayImageUrl s) = false ∨ s.isLoading = true ∨
      newRatio = s.currentAspectRatio
  · rw [if_pos hc]
    left
    rfl
  · rw [if_neg hc]
    cases hg2 : s.outfitHistory.get? s.currentOutfitIndex with
    | none => left; rfl
    | some layer =>
      cases gw with
      | error raw => left; rfl
      | ok img => right; exact ⟨layer, img, poseKey s s.currentPoseIndex, rfl, rfl⟩

/-- Same for the masked edit. -/
theorem imageEdit_history_cases (s : AppState) (gw : Except String String) :
    ((handleImageEdit s gw).1).outfitHistory = s.outfitHistory ∨
    ∃ layer img key, s.outfitHistory.get? s.currentOutfitIndex = some layer ∧
      ((handleImageEdit s gw).1).outfitHistory =
        s.outfitHistory.set s.currentOutfitIndex
          { layer with poseImages := objInsert layer.poseImages key img } := by
  unfold handleImageEdit
  by_cases hc : jsTruthy (displayImageUrl s) = false ∨ s.isLoading = true
  · rw [if_pos hc]
    left
    rfl
  · rw [if_neg hc]
    cases hg2 : s.outfitHistory.get? s.currentOutfitIndex with
    | none => left; rfl
    | some layer =>
      cases gw with
      | error raw => left; rfl
      | ok img => right; exact ⟨layer, img, poseKey s s.currentPoseIndex, rfl, rfl⟩

/-- The history after loading a saved outfit: unchanged (busy) or the
saved snapshot wholesale. -/
theorem loadOutfit_history_cases (s : AppState) (outfit : SavedOutfit) :
    (handleLoadOutfit s outfit).outfitHistory = s.outfitHistory ∨
    (handleLoadOutfit s outfit).outfitHistory = outfit.outfitLayers := by
  unfold handleLoadOutfit
  by_cases hc : s.isLoading = true
  · rw [if_pos hc]
    left
    rfl
  · rw [if_neg hc]
    rcases hfi : s.poseInstructions.findIdx? (fun p => p == outfit.poseInstruction) with _ | i
    · right; rfl
    · right; rfl

/-! ## Concrete demonstration states -/

def demoGarment : WardrobeItem :=
  { id := "g1", name := "Garment One", category := Category.garment }

def demoGarment2 : WardrobeItem :=
  { id := "g2", name := "Garment Two", category := Category.garment }

def demoLayer0 : OutfitLayer := { garment := none, poseImages := [("p0", "i0")] }

def demoLayer1 : OutfitLayer := { garment := some demoGarment, poseImages := [("p0", "i1")] }

def demoLayerTwoPoses : OutfitLayer :=
  { garment := some demoGarment, poseImages := [("p0", "i1"), ("p1", "i1b")] }

def demoBaseState : AppState :=
  { modelImageUrl := some "m",
    outfitHistory := [demoLayer0],
    currentOutfitIndex := 0,
    isLoading := false,
    error := none,
    poseInstructions := ["p0", "p1"],
    currentPoseIndex := 0,
    wardrobe := [],
    savedOutfits := [],
    currentAspectRatio := "2:3",
    undoStack := [] }

def demoTwoLayerState : AppState :=
  { demoBaseState with
    outfitHistory := [demoLayer0, demoLayer1],
    currentOutfitIndex := 1 }

def demoPosesState : AppState :=
  { demoBaseState with
    outfitHistory := [demoLayer0, demoLayerTwoPoses],
    currentOutfitIndex := 1 }

def demoStackState : AppState :=
  { demoTwoLayerState with undoStack := [UndoRecord.decIndexResetPose] }

def demoSavedOutfit : SavedOutfit :=
  { id := "o1", previewUrl := "i1",
    outfitLayers := [demoLayer0, demoLayer1], poseInstruction := "p0" }

/-! ## Claims -/

/-- C9: calling save when the active layer slice has length 1 or less
never appends to the saved-outfit collection and never calls the storage
set operation. -/
theorem C9_save_precondition (s : AppState) (freshId : String) (storage : Option String)
    (h : (activeOutfitLayers s).length ≤ 1) :
    handleSaveOutfit s freshId storage = (s, false) := by
  unfold handleSaveOutfit
  rw [if_pos (Or.inr h)]

theorem C9_save_precondition_witness :
    (activeOutfitLayers demoBaseState).length ≤ 1 ∧
      handleSaveOutfit demoBaseState "outfit-1" none = (demoBaseState, false) :=
  ⟨by decide, C9_save_precondition demoBaseState "outfit-1" none (by decide)⟩

/-- C6: selecting a pose index whose pose-instruction text already has an
entry in the active layer's poseImages never invokes the varyPose gateway
operation (0 calls, whatever the stubbed outcome) and leaves history
content unchanged; the only state change is the new currentPoseIndex. -/
theorem C6_pose_cache_idempotence (s : AppState) (newIndex : Nat)
    (gw : Except String String) (layer : OutfitLayer)
    (hL : s.isLoading = false) (hne : s.outfitHistory ≠ [])
    (hidx : newIndex ≠ s.currentPoseIndex)
    (hget : s.outfitHistory.get? s.currentOutfitIndex = some layer)
    (hcached : jsTruthy (objLookup layer.poseImages (poseKey s newIndex)) = true) :
    handlePoseSelect s newIndex gw = ({ s with currentPoseIndex := newIndex }, 0) :=
  poseSelect_cached_eq s newIndex gw layer hL hne hidx hget hcached

theorem C6_pose_cache_idempotence_witness :
    handlePoseSelect demoPosesState 1 (Except.error "service down") =
      ({ demoPosesState with currentPoseIndex := 1 }, 0) :=
  C6_pose_cache_idempotence demoPosesState 1 (Except.error "service down")
    demoLayerTwoPoses (by decide) (by decide) (by decide) (by decide) (by decide)

/-- C7: each destructive action — removeLastLayer with a positive cursor,
loading a saved outfit while not busy, and a full reset — leaves the undo
stack empty afterwards, regardless of its prior contents. -/
theorem C7_destructive_clear (s : AppState) (outfit : SavedOutfit)
    (hrem : 0 < s.currentOutfitIndex) (hL : s.isLoading = false) :
    (handleRemoveLastGarment s).undoStack = [] ∧
    (handleLoadOutfit s outfit).undoStack = [] ∧
    (handleStartOver s).undoStack = [] := by
  refine ⟨?_, ?_, rfl⟩
  · unfold handleRemoveLastGarment
    rw [if_pos hrem]
  · unfold handleLoadOutfit
    rw [if_neg (by simp [hL])]
    rcases hfi : s.poseInstructions.findIdx? (fun p => p == outfit.poseInstruction) with _ | i <;>
      rfl

theorem C7_destructive_clear_witness :
    0 < demoStackState.currentOutfitIndex ∧
    (handleRemoveLastGarment demoStackState).undoStack = [] ∧
    (handleLoadOutfit demoStackState demoSavedOutfit).undoStack = [] ∧
    (handleStartOver demoStackState).undoStack = [] := by
  have h := C7_destructive_clear demoStackState demoSavedOutfit (by decide) (by decide)
  exact ⟨by decide, h.1, h.2.1, h.2.2⟩

/-- C10: when the history is non-empty, the cursor points at a layer, and
that layer's pose map is non-empty, the derived display image is the
layer's entry for the current pose instruction when present and otherwise
the layer's first entry — hence it is never absent. -/
theorem C10_display_image (s : AppState) (layer : OutfitLayer)
    (hget : s.outfitHistory.get? s.currentOutfitIndex = some layer)
    (hne : layer.poseImages ≠ []) :
    (∀ v, objLookup layer.poseImages (poseKey s s.currentPoseIndex) = some v →
        displayImageUrl s = some v) ∧
    (objLookup layer.poseImages (poseKey s s.currentPoseIndex) = none →
        displayImageUrl s = objFirstValue layer.poseImages) ∧
    (displayImageUrl s).isSome := by
  have hnil : s.outfitHistory ≠ [] := by
    intro hh
    rw [hh] at hget
    simp at hget
  have hdisp : displayImageUrl s =
      match objLookup layer.poseImages (poseKey s s.currentPoseIndex) with
      | some img => some img
      | none => objFirstValue layer.poseImages := by
    unfold displayImageUrl
    rw [if_neg hnil, hget]
  refine ⟨?_, ?_, ?_⟩
  · intro v hv; rw [hdisp, hv]
  · intro hv; rw [hdisp, hv]
  · rw [hdisp]
    cases hv : objLookup layer.poseImages (poseKey s s.currentPoseIndex) with
    | none => exact objFirstValue_isSome _ hne
    | some v => rfl

/-- C4: applying garment B at cursor i while a different garment occupies
`history[i+1]` truncates `history[i+1..]` before appending B's layer, so
the new history is the active slice plus B's layer, its length is `i+2`,
and the cursor is `i+1`. -/
theorem C4_truncation (s : AppState) (b a : WardrobeItem) (nextLayer : OutfitLayer)
    (img : String)
    (hd : jsTruthy (displayImageUrl s) = true) (hL : s.isLoading = false)
    (hnext : s.outfitHistory.get? (s.currentOutfitIndex + 1) = some nextLayer)
    (hg : nextLayer.garment = some a) (hdiff : a.id ≠ b.id) :
    ((handleGarmentSelect s b (Except.ok img)).1).outfitHistory =
      s.outfitHistory.take (s.currentOutfitIndex + 1) ++
        [{ garment := some b, poseImages := [(poseKey s s.currentPoseIndex, img)] }] ∧
    ((handleGarmentSelect s b (Except.ok img)).1).outfitHistory.length =
      s.currentOutfitIndex + 2 ∧
    ((handleGarmentSelect s b (Except.ok img)).1).currentOutfitIndex =
      s.currentOutfitIndex + 1 := by
  have hmiss : cacheHitFor s b = false := by
    have hnext2 : s.outfitHistory[s.currentOutfitIndex + 1]? = some nextLayer := by
      rw [← List.get?_eq_getElem?]
      exact hnext
    simp [cacheHitFor, hnext2, hg, hdiff]
  have hlen : s.currentOutfitIndex + 1 < s.outfitHistory.length := by
    by_contra hc
    push_neg at hc
    rw [List.get?_eq_none.mpr hc] at hnext
    simp at hnext
  rw [garmentSelect_miss_ok_eq s b img hd hL hmiss]
  refine ⟨rfl, ?_, rfl⟩
  simp [List.length_take]
  omega

/-- The cursor position after applying a garment when `history[i+1]` is
occupied by a different garment, used to state the truncation witness. -/
def demoBranchState : AppState :=
  { demoBaseState with
    outfitHistory := [demoLayer0, demoLayer1],
    currentOutfitIndex := 0 }

theorem C4_truncation_witness :
    ((handleGarmentSelect demoBranchState demoGarment2 (Except.ok "i2")).1).outfitHistory =
      demoBranchState.outfitHistory.take (demoBranchState.currentOutfitIndex + 1) ++
        [{ garment := some demoGarment2,
           poseImages := [(poseKey demoBranchState demoBranchState.currentPoseIndex, "i2")] }] ∧
    ((handleGarmentSelect demoBranchState demoGarment2 (Except.ok "i2")).1).outfitHistory.length =
      demoBranchState.currentOutfitIndex + 2 ∧
    ((handleGarmentSelect demoBranchState demoGarment2 (Except.ok "i2")).1).currentOutfitIndex =
      demoBranchState.currentOutfitIndex + 1 :=
  C4_truncation demoBranchState demoGarment2 demoGarment demoLayer1 "i2"
    (by decide) (by decide) (by decide) (by decide) (by decide)

/-- The state after applying garment `g` (gateway answers `img`) and then
removing the last layer — the middle of the apply/remove/re-apply
sequence of the cache-hit law. -/
def removeAfterApply (s : AppState) (g : WardrobeItem) (img : String) : AppState :=
  handleRemoveLastGarment (handleGarmentSelect s g (Except.ok img)).1

/-- C3: applying a garment (a cache miss, one successful gateway call),
removing it via removeLastLayer, then re-applying the same garment id
invokes the gateway apply operation exactly once overall: the second
apply is a cache hit that advances the cursor by one, resets the pose
index to 0, and pushes an inverse restoring the prior cursor, without
calling the gateway. -/
theorem C3_cache_hit (s : AppState) (g : WardrobeItem) (img : String)
    (hd : jsTruthy (displayImageUrl s) = true) (hL : s.isLoading = false)
    (hmiss : cacheHitFor s g = false)
    (hidx : s.currentOutfitIndex < s.outfitHistory.length)
    (hd2 : jsTruthy (displayImageUrl (removeAfterApply s g img)) = true) :
    (handleGarmentSelect s g (Except.ok img)).2 +
      (handleGarmentSelect (removeAfterApply s g img) g (Except.ok img)).2 = 1 ∧
    handleGarmentSelect (removeAfterApply s g img) g (Except.ok img) =
      ({ removeAfterApply s g img with
         currentOutfitIndex := (removeAfterApply s g img).currentOutfitIndex + 1,
         currentPoseIndex := 0,
         undoStack := (removeAfterApply s g img).undoStack ++
           [UndoRecord.restoreIndex (removeAfterApply s g img).currentOutfitIndex] }, 0) := by
  have h1 := garmentSelect_miss_ok_eq s g img hd hL hmiss
  have hs2 : removeAfterApply s g img =
      { s with
        error := none,
        isLoading := false,
        outfitHistory := s.outfitHistory.take (s.currentOutfitIndex + 1) ++
          [{ garment := some g, poseImages := [(poseKey s s.currentPoseIndex, img)] }],
        currentOutfitIndex := s.currentOutfitIndex,
        currentPoseIndex := 0,
        undoStack := [],
        wardrobe := if s.wardrobe.any (fun item => item.id == g.id)
                    then s.wardrobe
                    else s.wardrobe ++ [g] } := by
    unfold removeAfterApply
    rw [h1]
    unfold handleRemoveLastGarment
    rw [if_pos (by simp)]
    simp
  have htake : (s.outfitHistory.take (s.currentOutfitIndex + 1)).length =
      s.currentOutfitIndex + 1 := by
    simp [List.length_take]
    omega
  have hL2 : (removeAfterApply s g img).isLoading = false := by rw [hs2]
  have hhit : cacheHitFor (removeAfterApply s g img) g = true := by
    rw [hs2]
    unfold cacheHitFor
    simp only
    rw [List.get?_append_right (by rw [htake]), htake]
    simp
  constructor
  · rw [garmentSelect_hit_eq (removeAfterApply s g img) g (Except.ok img) hd2 hL2 hhit, h1]
    rfl
  · exact garmentSelect_hit_eq (removeAfterApply s g img) g (Except.ok img) hd2 hL2 hhit

theorem C3_cache_hit_witness :
    (handleGarmentSelect demoBaseState demoGarment (Except.ok "i9")).2 +
      (handleGarmentSelect (removeAfterApply demoBaseState demoGarment "i9")
        demoGarment (Except.ok "i9")).2 = 1 ∧
    handleGarmentSelect (removeAfterApply demoBaseState demoGarment "i9")
        demoGarment (Except.ok "i9") =
      ({ removeAfterApply demoBaseState demoGarment "i9" with
         currentOutfitIndex :=
           (removeAfterApply demoBaseState demoGarment "i9").currentOutfitIndex + 1,
         currentPoseIndex := 0,
         undoStack := (removeAfterApply demoBaseState demoGarment "i9").undoStack ++
           [UndoRecord.restoreIndex
             (removeAfterApply demoBaseState demoGarment "i9").currentOutfitIndex] }, 0) :=
  C3_cache_hit demoBaseState demoGarment "i9"
    (by decide) (by decide) (by decide) (by decide) (by decide)

theorem C10_display_image_witness :
    displayImageUrl demoTwoLayerState = some "i1" ∧
      (displayImageUrl demoTwoLayerState).isSome := by
  have h := C10_display_image demoTwoLayerState demoLayer1 (by decide) (by decide)
  exact ⟨h.1 "i1" (by decide), h.2.2⟩

/-- A busy session (a gateway call pending) holding a two-layer outfit
and a non-empty undo stack. -/
def demoBusyState : AppState :=
  { demoTwoLayerState with
    isLoading := true,
    undoStack := [UndoRecord.decIndexResetPose] }

/-- C1 counterexample: the claim says that while busy, saving an outfit
and removing the last layer are no-ops that leave the saved-outfit
collection and the undo stack untouched.  In the code neither handler
checks the busy flag: in a busy state, save appends to the saved
collection (and invokes storage set), and removeLastLayer clears the
undo stack. -/
theorem C1_busy_exclusion_counterexample :
    demoBusyState.isLoading = true ∧
    (handleSaveOutfit demoBusyState "outfit-1" none).1.savedOutfits ≠
      demoBusyState.savedOutfits ∧
    (handleSaveOutfit demoBusyState "outfit-1" none).2 = true ∧
    (handleRemoveLastGarment demoBusyState).undoStack ≠ demoBusyState.undoStack := by
  decide

/-- C1 (amended): while a gateway call is pending (busy flag set), each
gateway-calling mutating operation — applying a garment, selecting a
pose, changing the background (by text or image), changing the aspect
ratio, applying a masked edit — as well as loading a saved outfit and
undo, is a no-op returning the state unchanged without invoking the
gateway; saving an outfit and removing the last layer are not guarded by
the busy flag. -/
theorem C1_busy_exclusion_amended (s : AppState) (g : WardrobeItem) (n : Nat)
    (r : String) (outfit : SavedOutfit) (gw : Except String String)
    (h : s.isLoading = true) :
    handleGarmentSelect s g gw = (s, 0) ∧
    handlePoseSelect s n gw = (s, 0) ∧
    handleBackgroundChange s gw = (s, 0) ∧
    handleCustomBackgroundChange s gw = (s, 0) ∧
    handleAspectRatioChange s r gw = (s, 0) ∧
    handleImageEdit s gw = (s, 0) ∧
    handleLoadOutfit s outfit = s ∧
    handleUndo s = s := by
  refine ⟨?_, ?_, ?_, ?_, ?_, ?_, ?_, ?_⟩
  · unfold handleGarmentSelect
    rw [if_pos (Or.inr h)]
  · unfold handlePoseSelect
    rw [if_pos (Or.inl h)]
  · unfold handleBackgroundChange
    rw [if_pos (Or.inr h)]
  · unfold handleCustomBackgroundChange
    rw [if_pos (Or.inr h)]
  · unfold handleAspectRatioChange
    rw [if_pos (Or.inr (Or.inl h))]
  · unfold handleImageEdit
    rw [if_pos (Or.inr h)]
  · unfold handleLoadOutfit
    rw [if_pos h]
  · unfold handleUndo
    rw [if_pos (Or.inr h)]

theorem C1_busy_exclusion_amended_witness :
    demoBusyState.isLoading = true ∧
    handleGarmentSelect demoBusyState demoGarment2 (Except.ok "ix") = (demoBusyState, 0) ∧
    handlePoseSelect demoBusyState 1 (Except.ok "ix") = (demoBusyState, 0) ∧
    handleBackgroundChange demoBusyState (Except.ok "ix") = (demoBusyState, 0) ∧
    handleCustomBackgroundChange demoBusyState (Except.ok "ix") = (demoBusyState, 0) ∧
    handleAspectRatioChange demoBusyState "1:1" (Except.ok "ix") = (demoBusyState, 0) ∧
    handleImageEdit demoBusyState (Except.ok "ix") = (demoBusyState, 0) ∧
    handleLoadOutfit demoBusyState demoSavedOutfit = demoBusyState ∧
    handleUndo demoBusyState = demoBusyState := by
  have h := C1_busy_exclusion_amended demoBusyState demoGarment2 1 "1:1"
    demoSavedOutfit (Except.ok "ix") (by decide)
  exact ⟨by decide, h.1, h.2.1, h.2.2.1, h.2.2.2.1, h.2.2.2.2.1, h.2.2.2.2.2.1,
    h.2.2.2.2.2.2.1, h.2.2.2.2.2.2.2⟩

/-- C5: every mutating operation is all-or-nothing.  On gateway failure
the resulting state is exactly the pre-state with only the error message
set (history, cursor, undo stack, pose index and aspect ratio all as
before — the optimistic pose/ratio updates having been reverted); on
success an inverse record is pushed on the undo stack. -/
theorem C5_all_or_nothing (s : AppState) (g : WardrobeItem) (n : Nat)
    (newRatio raw img : String) (layer : OutfitLayer)
    (hd : jsTruthy (displayImageUrl s) = true)
    (hL : s.isLoading = false)
    (hget : s.outfitHistory.get? s.currentOutfitIndex = some layer) :
    (cacheHitFor s g = false →
      (handleGarmentSelect s g (Except.error raw)).1 =
        { s with
          error := some (getFriendlyErrorMessage raw "Failed to apply garment"),
          isLoading := false }) ∧
    (cacheHitFor s g = false →
      ((handleGarmentSelect s g (Except.ok img)).1).undoStack =
        s.undoStack ++ [UndoRecord.decIndexResetPose]) ∧
    (cacheHitFor s g = true →
      ((handleGarmentSelect s g (Except.ok img)).1).undoStack =
        s.undoStack ++ [UndoRecord.restoreIndex s.currentOutfitIndex]) ∧
    (s.outfitHistory ≠ [] → n ≠ s.currentPoseIndex →
      jsTruthy (objLookup layer.poseImages (poseKey s n)) = false →
      jsTruthy (objFirstValue layer.poseImages) = true →
      (handlePoseSelect s n (Except.error raw)).1 =
        { s with
          error := some (getFriendlyErrorMessage raw "Failed to change pose"),
          isLoading := false } ∧
      ((handlePoseSelect s n (Except.ok img)).1).undoStack =
        s.undoStack ++
          [UndoRecord.restoreLayerAndPose s.currentOutfitIndex layer
            s.currentPoseIndex]) ∧
    ((handleBackgroundChange s (Except.error raw)).1 =
      { s with
        error := some (getFriendlyErrorMessage raw "Failed to change background"),
        isLoading := false }) ∧
    (((handleBackgroundChange s (Except.ok img)).1).undoStack =
      s.undoStack ++ [UndoRecord.restoreLayer s.currentOutfitIndex layer]) ∧
    (newRatio ≠ s.currentAspectRatio →
      (handleAspectRatioChange s newRatio (Except.error raw)).1 =
        { s with
          error := some (getFriendlyErrorMessage raw "Failed to change aspect ratio"),
          isLoading := false } ∧
      ((handleAspectRatioChange s newRatio (Except.ok img)).1).undoStack =
        s.undoStack ++
          [UndoRecord.restoreLayerAndRatio s.currentOutfitIndex layer
            s.currentAspectRatio]) ∧
    ((handleImageEdit s (Except.error raw)).1 =
      { s with
        error := some (getFriendlyErrorMessage raw "Failed to apply edits"),
        isLoading := false }) ∧
    (((handleImageEdit s (Except.ok img)).1).undoStack =
      s.undoStack ++ [UndoRecord.restoreLayer s.currentOutfitIndex layer]) := by
  refine ⟨?_, ?_, ?_, ?_, ?_, ?_, ?_, ?_, ?_⟩
  · intro hmiss
    rw [garmentSelect_miss_err_eq s g raw hd hL hmiss]
  · intro hmiss
    rw [garmentSelect_miss_ok_eq s g img hd hL hmiss]
  · intro hhit
    rw [garmentSelect_hit_eq s g (Except.ok img) hd hL hhit]
  · intro hne hidx hmiss hbase
    constructor
    · rw [poseSelect_gen_err_eq s n raw layer hL hne hidx hget hmiss hbase]
    · rw [poseSelect_gen_ok_eq s n img layer hL hne hidx hget hmiss hbase]
  · rw [backgroundChange_err_eq s raw layer hd hL hget]
  · rw [backgroundChange_ok_eq s img layer hd hL hget]
  · intro hr
    constructor
    · rw [aspectRatioChange_err_eq s newRatio raw layer hd hL hr hget]
    · rw [aspectRatioChange_ok_eq s newRatio img layer hd hL hr hget]
  · rw [imageEdit_err_eq s raw layer hd hL hget]
  · rw [imageEdit_ok_eq s img layer hd hL hget]

theorem C5_all_or_nothing_witness :
    (handleGarmentSelect demoTwoLayerState demoGarment2 (Except.error "boom")).1 =
      { demoTwoLayerState with
        error := some (getFriendlyErrorMessage "boom" "Failed to apply garment"),
        isLoading := false } ∧
    (handlePoseSelect demoTwoLayerState 1 (Except.error "boom")).1 =
      { demoTwoLayerState with
        error := some (getFriendlyErrorMessage "boom" "Failed to change pose"),
        isLoading := false } ∧
    (handleAspectRatioChange demoTwoLayerState "1:1" (Except.error "boom")).1 =
      { demoTwoLayerState with
        error := some (getFriendlyErrorMessage "boom" "Failed to change aspect ratio"),
        isLoading := false } ∧
    (handleImageEdit demoTwoLayerState (Except.error "boom")).1 =
      { demoTwoLayerState with
        error := some (getFriendlyErrorMessage "boom" "Failed to apply edits"),
        isLoading := false } ∧
    ((handleBackgroundChange demoTwoLayerState (Except.ok "i9")).1).undoStack =
      demoTwoLayerState.undoStack ++ [UndoRecord.restoreLayer 1 demoLayer1] := by
  have h := C5_all_or_nothing demoTwoLayerState demoGarment2 1 "1:1" "boom" "i9"
    demoLayer1 (by decide) (by decide) (by decide)
  obtain ⟨a1, a2, a3, a4, a5, a6, a7, a8, a9⟩ := h
  exact ⟨a1 (by decide), (a4 (by decide) (by decide) (by decide) (by decide)).1,
    (a7 (by decide)).1, a8, a6⟩

/-- C2: for every successful mutating operation that pushes an inverse —
garment apply on cache hit or miss, pose generation, background change,
aspect-ratio change, masked edit — an immediate undo restores the fields
the inverse captured (cursor for the applies; layer and pose index for
pose generation; layer for background and masked edit; layer and ratio
for aspect-ratio change) to their exact pre-operation values and pops
exactly one entry, leaving the undo stack as before the operation. -/
theorem C2_undo_correctness (s : AppState) (g : WardrobeItem) (n : Nat)
    (newRatio img : String) (layer : OutfitLayer) (gw : Except String String)
    (hd : jsTruthy (displayImageUrl s) = true)
    (hL : s.isLoading = false)
    (hget : s.outfitHistory.get? s.currentOutfitIndex = some layer) :
    (cacheHitFor s g = true →
      (handleUndo (handleGarmentSelect s g gw).1).currentOutfitIndex =
        s.currentOutfitIndex ∧
      (handleUndo (handleGarmentSelect s g gw).1).undoStack = s.undoStack) ∧
    (cacheHitFor s g = false →
      (handleUndo (handleGarmentSelect s g (Except.ok img)).1).currentOutfitIndex =
        s.currentOutfitIndex ∧
      (handleUndo (handleGarmentSelect s g (Except.ok img)).1).undoStack =
        s.undoStack) ∧
    (s.outfitHistory ≠ [] → n ≠ s.currentPoseIndex →
      jsTruthy (objLookup layer.poseImages (poseKey s n)) = false →
      jsTruthy (objFirstValue layer.poseImages) = true →
      (handleUndo (handlePoseSelect s n (Except.ok img)).1).outfitHistory =
        s.outfitHistory ∧
      (handleUndo (handlePoseSelect s n (Except.ok img)).1).currentPoseIndex =
        s.currentPoseIndex ∧
      (handleUndo (handlePoseSelect s n (Except.ok img)).1).undoStack = s.undoStack) ∧
    ((handleUndo (handleBackgroundChange s (Except.ok img)).1).outfitHistory =
        s.outfitHistory ∧
      (handleUndo (handleBackgroundChange s (Except.ok img)).1).undoStack =
        s.undoStack) ∧
    (newRatio ≠ s.currentAspectRatio →
      (handleUndo (handleAspectRatioChange s newRatio (Except.ok img)).1).outfitHistory =
        s.outfitHistory ∧
      (handleUndo (handleAspectRatioChange s newRatio (Except.ok img)).1).currentAspectRatio =
        s.currentAspectRatio ∧
      (handleUndo (handleAspectRatioChange s newRatio (Except.ok img)).1).undoStack =
        s.undoStack) ∧
    ((handleUndo (handleImageEdit s (Except.ok img)).1).outfitHistory =
        s.outfitHistory ∧
      (handleUndo (handleImageEdit s (Except.ok img)).1).undoStack = s.undoStack) := by
  refine ⟨?_, ?_, ?_, ?_, ?_, ?_⟩
  · intro hhit
    rw [garmentSelect_hit_eq s g gw hd hL hhit,
        handleUndo_concat _ s.undoStack (UndoRecord.restoreIndex s.currentOutfitIndex)
          (by exact hL) (by rfl)]
    exact ⟨rfl, rfl⟩
  · intro hmiss
    rw [garmentSelect_miss_ok_eq s g img hd hL hmiss,
        handleUndo_concat _ s.undoStack UndoRecord.decIndexResetPose
          (by rfl) (by rfl)]
    exact ⟨by simp [applyUndoRecord], rfl⟩
  · intro hne hidx hmiss hbase
    rw [poseSelect_gen_ok_eq s n img layer hL hne hidx hget hmiss hbase,
        handleUndo_concat _ s.undoStack
          (UndoRecord.restoreLayerAndPose s.currentOutfitIndex layer s.currentPoseIndex)
          (by rfl) (by rfl)]
    refine ⟨?_, rfl, rfl⟩
    simp only [applyUndoRecord]
    rw [List.set_set]
    exact list_set_get?_self _ _ _ hget
  · rw [backgroundChange_ok_eq s img layer hd hL hget,
        handleUndo_concat _ s.undoStack
          (UndoRecord.restoreLayer s.currentOutfitIndex layer) (by rfl) (by rfl)]
    refine ⟨?_, rfl⟩
    simp only [applyUndoRecord]
    rw [List.set_set]
    exact list_set_get?_self _ _ _ hget
  · intro hr
    rw [aspectRatioChange_ok_eq s newRatio img layer hd hL hr hget,
        handleUndo_concat _ s.undoStack
          (UndoRecord.restoreLayerAndRatio s.currentOutfitIndex layer
            s.currentAspectRatio) (by rfl) (by rfl)]
    refine ⟨?_, rfl, rfl⟩
    simp only [applyUndoRecord]
    rw [List.set_set]
    exact list_set_get?_self _ _ _ hget
  · rw [imageEdit_ok_eq s img layer hd hL hget,
        handleUndo_concat _ s.undoStack
          (UndoRecord.restoreLayer s.currentOutfitIndex layer) (by rfl) (by rfl)]
    refine ⟨?_, rfl⟩
    simp only [applyUndoRecord]
    rw [List.set_set]
    exact list_set_get?_self _ _ _ hget

theorem C2_undo_correctness_witness :
    ((handleUndo (handlePoseSelect demoTwoLayerState 1 (Except.ok "i1b")).1).outfitHistory =
        demoTwoLayerState.outfitHistory ∧
      (handleUndo (handlePoseSelect demoTwoLayerState 1 (Except.ok "i1b")).1).currentPoseIndex =
        demoTwoLayerState.currentPoseIndex ∧
      (handleUndo (handlePoseSelect demoTwoLayerState 1 (Except.ok "i1b")).1).undoStack =
        demoTwoLayerState.undoStack) ∧
    ((handleUndo (handleGarmentSelect demoTwoLayerState demoGarment2 (Except.ok "i9")).1).currentOutfitIndex =
        demoTwoLayerState.currentOutfitIndex ∧
      (handleUndo (handleGarmentSelect demoTwoLayerState demoGarment2 (Except.ok "i9")).1).undoStack =
        demoTwoLayerState.undoStack) ∧
    ((handleUndo (handleAspectRatioChange demoTwoLayerState "1:1" (Except.ok "i9")).1).currentAspectRatio =
        demoTwoLayerState.currentAspectRatio) := by
  have h := C2_undo_correctness demoTwoLayerState demoGarment2 1 "1:1" "i9"
    demoLayer1 (Except.ok "i9") (by decide) (by decide) (by decide)
  exact ⟨h.2.2.1 (by decide) (by decide) (by decide) (by decide),
    h.2.1 (by decide), (h.2.2.2.2.1 (by decide)).2.1⟩

/-- C8: starting from a history in which every layer has a non-empty
pose map, every operation reachable through the public surface keeps
every layer's pose map non-empty (model finalization creates the
invariant; loading needs the snapshot itself to satisfy it), and no
operation removes an existing poseImages entry from a surviving layer:
each layer after an operation is either a layer of the old history, a
fresh non-empty layer, or an objInsert-extension of an old layer — and
objInsert preserves every existing key. -/
theorem C8_layer_invariant (s : AppState) (url : String) (g : WardrobeItem)
    (n : Nat) (newRatio : String) (outfit : SavedOutfit) (gw : Except String String)
    (hInv : layersNonEmpty s.outfitHistory) :
    layersNonEmpty (handleModelFinalized s url).outfitHistory ∧
    layersNonEmpty ((handleGarmentSelect s g gw).1).outfitHistory ∧
    layersNonEmpty ((handlePoseSelect s n gw).1).outfitHistory ∧
    layersNonEmpty ((handleBackgroundChange s gw).1).outfitHistory ∧
    layersNonEmpty ((handleCustomBackgroundChange s gw).1).outfitHistory ∧
    layersNonEmpty ((handleAspectRatioChange s newRatio gw).1).outfitHistory ∧
    layersNonEmpty ((handleImageEdit s gw).1).outfitHistory ∧
    (layersNonEmpty outfit.outfitLayers →
      layersNonEmpty (handleLoadOutfit s outfit).outfitHistory) ∧
    (∀ l2 ∈ ((handleGarmentSelect s g gw).1).outfitHistory,
      l2 ∈ s.outfitHistory ∨ l2.poseImages ≠ []) ∧
    (∀ l2 ∈ ((handlePoseSelect s n gw).1).outfitHistory,
      l2 ∈ s.outfitHistory ∨
      ∃ l ∈ s.outfitHistory, ∃ k v, l2.poseImages = objInsert l.poseImages k v) ∧
    (∀ l2 ∈ ((handleBackgroundChange s gw).1).outfitHistory,
      l2 ∈ s.outfitHistory ∨
      ∃ l ∈ s.outfitHistory, ∃ k v, l2.poseImages = objInsert l.poseImages k v) ∧
    (∀ l2 ∈ ((handleCustomBackgroundChange s gw).1).outfitHistory,
      l2 ∈ s.outfitHistory ∨
      ∃ l ∈ s.outfitHistory, ∃ k v, l2.poseImages = objInsert l.poseImages k v) ∧
    (∀ l2 ∈ ((handleAspectRatioChange s newRatio gw).1).outfitHistory,
      l2 ∈ s.outfitHistory ∨
      ∃ l ∈ s.outfitHistory, ∃ k v, l2.poseImages = objInsert l.poseImages k v) ∧
    (∀ l2 ∈ ((handleImageEdit s gw).1).outfitHistory,
      l2 ∈ s.outfitHistory ∨
      ∃ l ∈ s.outfitHistory, ∃ k v, l2.poseImages = objInsert l.poseImages k v) ∧
    (∀ (m : List (String × String)) (k v k2 : String),
      (objLookup m k2).isSome → (objLookup (objInsert m k v) k2).isSome) := by
  have hsetInv : ∀ (layer : OutfitLayer) (k v : String),
      layersNonEmpty (s.outfitHistory.set s.currentOutfitIndex
        { layer with poseImages := objInsert layer.poseImages k v }) := by
    intro layer k v l hl
    rcases List.mem_or_eq_of_mem_set hl with h1 | h1
    · exact hInv l h1
    · rw [h1]
      exact objInsert_ne_nil _ _ _
  have hsetExt : ∀ (layer : OutfitLayer) (k v : String),
      s.outfitHistory.get? s.currentOutfitIndex = some layer →
      ∀ l2 ∈ s.outfitHistory.set s.currentOutfitIndex
        { layer with poseImages := objInsert layer.poseImages k v },
      l2 ∈ s.outfitHistory ∨
      ∃ l ∈ s.outfitHistory, ∃ k2 v2, l2.poseImages = objInsert l.poseImages k2 v2 := by
    intro layer k v hg2 l2 hl2
    rcases List.mem_or_eq_of_mem_set hl2 with h1 | h1
    · exact Or.inl h1
    · right
      exact ⟨layer, List.get?_mem hg2, k, v, by rw [h1]⟩
  refine ⟨?_, ?_, ?_, ?_, ?_, ?_, ?_, ?_, ?_, ?_, ?_, ?_, ?_, ?_, ?_⟩
  · intro l hl
    simp [handleModelFinalized] at hl
    rw [hl]
    simp
  · rcases garmentSelect_history_cases s g gw with h | ⟨nl, hnl, h⟩
    · rw [h]; exact hInv
    · rw [h]
      intro l hl
      rcases List.mem_append.mp hl with h1 | h1
      · exact hInv l (List.take_subset _ _ h1)
      · rw [List.mem_singleton.mp h1]
        exact hnl
  · rcases poseSelect_history_cases s n gw with h | ⟨layer, img, key, hg2, h⟩
    · rw [h]; exact hInv
    · rw [h]; exact hsetInv layer key img
  · rcases backgroundChange_history_cases s gw with h | ⟨layer, img, key, hg2, h⟩
    · rw [h]; exact hInv
    · rw [h]; exact hsetInv layer key img
  · rcases customBackgroundChange_history_cases s gw with h | ⟨layer, img, key, hg2, h⟩
    · rw [h]; exact hInv
    · rw [h]; exact hsetInv layer key img
  · rcases aspectRatioChange_history_cases s newRatio gw with h | ⟨layer, img, key, hg2, h⟩
    · rw [h]; exact hInv
    · rw [h]; exact hsetInv layer key img
  · rcases imageEdit_history_cases s gw with h | ⟨layer, img, key, hg2, h⟩
    · rw [h]; exact hInv
    · rw [h]; exact hsetInv layer key img
  · intro hOut
    rcases loadOutfit_history_cases s outfit with h | h
    · rw [h]; exact hInv
    · rw [h]; exact hOut
  · rcases garmentSelect_history_cases s g gw with h | ⟨nl, hnl, h⟩
    · rw [h]
      intro l2 hl2
      exact Or.inl hl2
    · rw [h]
      intro l2 hl2
      rcases List.mem_append.mp hl2 with h1 | h1
      · exact Or.inl (List.take_subset _ _ h1)
      · right
        rw [List.mem_singleton.mp h1]
        exact hnl
  · rcases poseSelect_history_cases s n gw with h | ⟨layer, img, key, hg2, h⟩
    · rw [h]
      intro l2 hl2
      exact Or.inl hl2
    · rw [h]; exact hsetExt layer key img hg2
  · rcases backgroundChange_history_cases s gw with h | ⟨layer, img, key, hg2, h⟩
    · rw [h]
      intro l2 hl2
      exact Or.inl hl2
    · rw [h]; exact hsetExt layer key img hg2
  · rcases customBackgroundChange_history_cases s gw with h | ⟨layer, img, key, hg2, h⟩
    · rw [h]
      intro l2 hl2
      exact Or.inl hl2
    · rw [h]; exact hsetExt layer key img hg2
  · rcases aspectRatioChange_history_cases s newRatio gw with h | ⟨layer, img, key, hg2, h⟩
    · rw [h]
      intro l2 hl2
      exact Or.inl hl2
    · rw [h]; exact hsetExt layer key img hg2
  · rcases imageEdit_history_cases s gw with h | ⟨layer, img, key, hg2, h⟩
    · rw [h]
      intro l2 hl2
      exact Or.inl hl2
    · rw [h]; exact hsetExt layer key img hg2
  · intro m k v k2 hk
    exact isSome_objLookup_objInsert m k v k2 hk

theorem C8_layer_invariant_witness :
    layersNonEmpty ((handleGarmentSelect demoTwoLayerState demoGarment2
      (Except.ok "i2")).1).outfitHistory ∧
    layersNonEmpty ((handlePoseSelect demoTwoLayerState 1
      (Except.ok "i2")).1).outfitHistory ∧
    layersNonEmpty (handleLoadOutfit demoTwoLayerState demoSavedOutfit).outfitHistory := by
  have h := C8_layer_invariant demoTwoLayerState "u" demoGarment2 1 "1:1"
    demoSavedOutfit (Except.ok "i2")
    (by unfold layersNonEmpty; decide)
  exact ⟨h.2.1, h.2.2.1, h.2.2.2.2.2.2.2.1 (by unfold layersNonEmpty; decide)⟩

/-- C8 counterexample: undo is an operation, is not a full reset, and
does remove an existing poseImages entry from a surviving layer.  After
generating pose "p1" on the active layer the entry exists; the immediate
undo restores the captured pre-generation layer snapshot, and the entry
for "p1" is gone from the same (still present) layer. -/
theorem C8_layer_invariant_counterexample :
    (objLookup (((((handlePoseSelect demoTwoLayerState 1
        (Except.ok "i1b")).1).outfitHistory.get? 1).getD demoLayer0).poseImages)
      "p1").isSome = true ∧
    (objLookup ((((handleUndo (handlePoseSelect demoTwoLayerState 1
        (Except.ok "i1b")).1).outfitHistory.get? 1).getD demoLayer0).poseImages)
      "p1").isSome = false := by
  decide
